import Mathlib

/-!  Shallow embedding of the `cw-proposal-multiple` legacy proposal module
(`src/legacy/cw-proposal-multiple/src/contract.rs`) of the dao-dao-contracts
repository: the data model, the proposal lifecycle operations, the pagination
queries, and theorems settling the specification's claims about them.

Supporting packages of the repository (`cwd_voting`: status derivation, vote
tallies, deposit helpers, reply-id tagging; the module's own
`proposal.rs`/`state.rs`) are not among the provided sources; every definition
standing in for such code carries a doc comment starting `Modelled from the
spec:` and follows the specification's wording.  Everything else is translated
directly from `contract.rs`.  Contract errors abort the whole operation with
no state committed (host-level rollback, spec section 5), so every operation
is a function `... → Except ContractError (State × Response)`.  -/

namespace ProposalMultiple

/-- Proposal status (`cwd_voting::status::Status`); the six states named by the
spec's state machine (section 4.1). -/
inductive Status
  | Open
  | Rejected
  | Passed
  | Executed
  | Closed
  | ExecutionFailed
  deriving DecidableEq, Repr

/-- Deposit refund policy (`cwd_voting::deposit::DepositRefundPolicy`),
spec section 4.2. -/
inductive DepositRefundPolicy
  | Always
  | OnlyPassed
  | Never
  deriving DecidableEq, Repr

/-- Block information (`cosmwasm_std::BlockInfo`): current height and time. -/
structure BlockInfo where
  height : Nat
  time : Nat
  deriving DecidableEq, Repr

/-- Execution environment (`cosmwasm_std::Env`): current block and the
module's own contract address. -/
structure Env where
  block : BlockInfo
  contract_address : String
  deriving DecidableEq, Repr

/-- Expiration (`cw_utils::Expiration`, host utility crate): a point in time
expressed as a block height, a timestamp, or never. -/
inductive Expiration
  | atHeight (h : Nat)
  | atTime (t : Nat)
  | never
  deriving DecidableEq, Repr

/-- `cw_utils::Expiration::is_expired`: expired once the block has reached the
stored height or time. -/
def Expiration.is_expired (e : Expiration) (b : BlockInfo) : Bool :=
  match e with
  | .atHeight h => h ≤ b.height
  | .atTime t => t ≤ b.time
  | .never => false

/-- Duration (`cw_utils::Duration`): a span of blocks or seconds. -/
inductive Duration
  | height (n : Nat)
  | time (n : Nat)
  deriving DecidableEq, Repr

/-- `cw_utils::Duration::after`: the expiration this duration yields when
started at the given block. -/
def Duration.after (d : Duration) (b : BlockInfo) : Expiration :=
  match d with
  | .height n => .atHeight (b.height + n)
  | .time n => .atTime (b.time + n)

/-- Modelled from the spec: the voting strategy / threshold rule
(`crate::voting_strategy::VotingStrategy`, not among the sources).  The spec
(sections 4.1, 3) describes it as a quorum rule against the total-power
snapshot; modelled as a percentage quorum. -/
structure VotingStrategy where
  quorum_percent : Nat
  deriving DecidableEq, Repr

/-- Checked deposit information (`cwd_voting::deposit::CheckedDepositInfo`):
token denomination, strictly positive amount, refund policy (spec 4.2). -/
structure CheckedDepositInfo where
  denom : String
  amount : Nat
  refund_policy : DepositRefundPolicy
  deriving DecidableEq, Repr

/-- A multiple-choice vote (`cwd_voting::voting::MultipleChoiceVote`): the
index of the chosen option. -/
structure MultipleChoiceVote where
  option_id : Nat
  deriving DecidableEq, Repr

/-- A ballot (`crate::state::Ballot`): the voter's weight at cast time and the
chosen option (spec section 3, Ballot). -/
structure Ballot where
  power : Nat
  vote : MultipleChoiceVote
  deriving DecidableEq, Repr

/-- A checked choice (`CheckedMultipleChoiceOption`): human label plus an
optional ordered list of side-effect messages (payloads kept opaque). -/
structure CheckedMultipleChoiceOption where
  description : String
  msgs : Option (List Nat)
  deriving DecidableEq, Repr

/-- Per-choice vote-weight tally
(`cwd_voting::voting::MultipleChoiceVotes`). -/
structure MultipleChoiceVotes where
  vote_weights : List Nat
  deriving DecidableEq, Repr

/-- Modelled from the spec: `MultipleChoiceVotes::zero` — one zero tally entry
per choice. -/
def MultipleChoiceVotes.zero (n : Nat) : MultipleChoiceVotes :=
  ⟨List.replicate n 0⟩

/-- Modelled from the spec: `MultipleChoiceVotes::add_vote` — the voter's
weight is added to the chosen option's tally entry. -/
def MultipleChoiceVotes.add_vote (m : MultipleChoiceVotes)
    (vote : MultipleChoiceVote) (power : Nat) : MultipleChoiceVotes :=
  ⟨m.vote_weights.set vote.option_id
    (m.vote_weights.getD vote.option_id 0 + power)⟩

/-- Modelled from the spec: `MultipleChoiceVotes::remove_vote` — the prior
weight is subtracted from the prior option's tally entry (revote rule,
spec section 4.1). -/
def MultipleChoiceVotes.remove_vote (m : MultipleChoiceVotes)
    (vote : MultipleChoiceVote) (power : Nat) : MultipleChoiceVotes :=
  ⟨m.vote_weights.set vote.option_id
    (m.vote_weights.getD vote.option_id 0 - power)⟩

/-- Total cast weight across all choices. -/
def MultipleChoiceVotes.total (m : MultipleChoiceVotes) : Nat :=
  m.vote_weights.foldr (· + ·) 0

/-- A proposal record (`crate::proposal::MultipleChoiceProposal`), fields per
spec section 3. -/
structure MultipleChoiceProposal where
  title : String
  description : String
  proposer : String
  start_height : Nat
  min_voting_period : Option Expiration
  expiration : Expiration
  voting_strategy : VotingStrategy
  total_power : Nat
  status : Status
  votes : MultipleChoiceVotes
  allow_revoting : Bool
  deposit_info : Option CheckedDepositInfo
  choices : List CheckedMultipleChoiceOption
  created : Nat
  last_updated : Nat
  deriving DecidableEq, Repr

/-- Module configuration (`crate::state::Config`), spec section 3. -/
structure Config where
  voting_strategy : VotingStrategy
  min_voting_period : Option Duration
  max_voting_period : Duration
  only_members_execute : Bool
  allow_revoting : Bool
  dao : String
  deposit_info : Option CheckedDepositInfo
  close_proposal_on_execution_failure : Bool
  open_proposal_submission : Bool
  deriving DecidableEq, Repr

/-- Contract errors (`crate::error::ContractError`), spec section 7.
`Std` stands for a host-level standard error (for instance a failed
`Map::load` on a missing key). -/
inductive ContractError
  | Std (message : String)
  | NoSuchProposal (id : Nat)
  | InvalidVote
  | NotOpen (id : Nat)
  | NotRegistered
  | AlreadyCast
  | AlreadyVoted
  | NotPassed
  | WrongCloseStatus
  | Tie
  | Unauthorized
  | InactiveDao
  | MustHaveVotingPower
  | HookError
  deriving DecidableEq, Repr

/-- Outgoing messages requested by an operation.  `transfer` is a
deposit-refund transfer-out to the named recipient, `escrowDeposit` the
transfer-in escrow request against the proposer, `executeProposalHook` the
winning choice's message batch sent to the DAO. -/
inductive Msg
  | transfer (recipient : String) (amount : Nat)
  | escrowDeposit (proposer : String) (amount : Nat)
  | executeProposalHook (dao : String) (msgs : List Nat)
  deriving DecidableEq, Repr

/-- Submessages: a reply-on-error dispatch carrying a tagged reply id, or a
hook notification (hook payloads kept opaque). -/
inductive SubMsg
  | replyOnError (m : Msg) (id : Nat)
  | hook (payload : String)
  deriving DecidableEq, Repr

/-- The response assembled by an operation: ordinary messages and
submessages. -/
structure Response where
  messages : List Msg
  submessages : List SubMsg
  deriving DecidableEq, Repr

/-- The VotingPowerOracle collaborator (spec sections 2 and 6): voting power
of an address at an optional historical height, total power at an optional
height, and the activity flag (already defaulted to `true` when the voting
module lacks the query). -/
structure Querier where
  is_active : Bool
  voting_power : String → Option Nat → Nat
  total_power : Option Nat → Nat

/-- Persistent module state: the `CONFIG`, `PROPOSAL_COUNT`, `PROPOSALS`,
`BALLOTS`, `PROPOSAL_HOOKS` and `VOTE_HOOKS` items of `crate::state`.
`proposals` models the `Map<u64, MultipleChoiceProposal>` as a key-sorted
association list; `ballots` models `Map<(u64, Addr), Ballot>`. -/
structure State where
  config : Config
  proposal_count : Nat
  proposals : List (Nat × MultipleChoiceProposal)
  ballots : List ((Nat × String) × Ballot)
  proposal_hooks : List String
  vote_hooks : List String
  deriving DecidableEq, Repr

/-- `Map::may_load` on the proposals map. -/
def lookup_proposal : List (Nat × MultipleChoiceProposal) → Nat →
    Option MultipleChoiceProposal
  | [], _ => none
  | (k, p) :: tl, id => if id = k then some p else lookup_proposal tl id

/-- `Map::save` on the proposals map: replace the value at an existing key,
otherwise insert keeping the list sorted by key (the storage map iterates in
ascending key order). -/
def save_proposal : List (Nat × MultipleChoiceProposal) → Nat →
    MultipleChoiceProposal → List (Nat × MultipleChoiceProposal)
  | [], id, p => [(id, p)]
  | (k, q) :: tl, id, p =>
    if id < k then (id, p) :: (k, q) :: tl
    else if id = k then (id, p) :: tl
    else (k, q) :: save_proposal tl id p

/-- `Map::may_load` on the ballots map. -/
def lookup_ballot : List ((Nat × String) × Ballot) → Nat × String →
    Option Ballot
  | [], _ => none
  | (k, bl) :: tl, key => if key = k then some bl else lookup_ballot tl key

/-- Writing a ballot: replace the entry at an existing key, otherwise append
(the ballot is replaced, not duplicated — spec section 3, Ballot). -/
def save_ballot : List ((Nat × String) × Ballot) → Nat × String → Ballot →
    List ((Nat × String) × Ballot)
  | [], key, bl => [(key, bl)]
  | (k, b0) :: tl, key, bl =>
    if key = k then (k, bl) :: tl else (k, b0) :: save_ballot tl key bl

/-- Largest tallied weight across all choices. -/
def maxWeight (l : List Nat) : Nat := l.foldr Nat.max 0

/-- The outcome of tallying (`crate::proposal::VoteResult`): a tie of the
leading choices or a single winner. -/
inductive VoteResult
  | Tie
  | SingleWinner (choice : CheckedMultipleChoiceOption)
  deriving DecidableEq, Repr

/-- Modelled from the spec:
`MultipleChoiceProposal::calculate_vote_result` — if two or more choices are
tied for the highest weight the outcome is `Tie`; otherwise the unique choice
carrying the highest weight is the single winner (tie-break policy,
spec section 4.1). -/
def MultipleChoiceProposal.calculate_vote_result
    (p : MultipleChoiceProposal) : VoteResult :=
  if 2 ≤ ((p.votes.vote_weights.filter
      (fun x => x = maxWeight p.votes.vote_weights)).length) then .Tie
  else
    match (p.choices.zip p.votes.vote_weights).find?
        (fun cw => cw.2 = maxWeight p.votes.vote_weights) with
    | some cw => .SingleWinner cw.1
    | none => .Tie

/-- Modelled from the spec: `MultipleChoiceProposal::is_passed` — the
proposal passes once the closing conditions are met (the voting period has
expired and the minimum voting period, when set, has elapsed), the quorum of
the total-power snapshot is reached, and the tally has a unique leading
choice (a tie is treated as not-yet-passable; spec sections 4.1 and 9). -/
def MultipleChoiceProposal.is_passed (p : MultipleChoiceProposal)
    (b : BlockInfo) : Bool :=
  (match p.min_voting_period with
    | some minp => minp.is_expired b
    | none => true)
  && p.expiration.is_expired b
  && decide (p.voting_strategy.quorum_percent * p.total_power
      ≤ p.votes.total * 100)
  && (match p.calculate_vote_result with
    | .SingleWinner _ => true
    | .Tie => false)

/-- Modelled from the spec: `MultipleChoiceProposal::current_status` — the
status is a pure function of tally, time and rule, except the terminal
statuses `Executed`, `ExecutionFailed` and `Closed`, which short-circuit the
recomputation (spec sections 3 and 9): a non-terminal proposal is `Passed`
when the passing conditions hold, `Rejected` when expired without passing,
and `Open` otherwise. -/
def MultipleChoiceProposal.current_status (p : MultipleChoiceProposal)
    (b : BlockInfo) : Status :=
  if p.status = .Executed ∨ p.status = .ExecutionFailed ∨ p.status = .Closed
    then p.status
  else if p.is_passed b then .Passed
  else if p.expiration.is_expired b then .Rejected
  else .Open

/-- `MultipleChoiceProposal::update_status`: store the freshly recomputed
status back into the record. -/
def MultipleChoiceProposal.update_status (p : MultipleChoiceProposal)
    (b : BlockInfo) : MultipleChoiceProposal :=
  { p with status := p.current_status b }

/-- Modelled from the spec: `get_deposit_msg`
(`cwd_voting::deposit`) — escrow is requested during `Propose` as a
transfer-in against the proposer when a deposit is configured (spec 4.2). -/
def get_deposit_msg (info : Option CheckedDepositInfo)
    (_contract sender : String) : List Msg :=
  match info with
  | none => []
  | some d => [.escrowDeposit sender d.amount]

/-- Modelled from the spec: `get_return_deposit_msg`
(`cwd_voting::deposit`) — the refund is a transfer-out of the escrowed amount
to the given recipient (spec 4.2). -/
def get_return_deposit_msg (d : CheckedDepositInfo) (recipient : String) :
    List Msg :=
  [.transfer recipient d.amount]

/-- Modelled from the spec: the fixed default page-size constant
(`cwd_voting::proposal::DEFAULT_LIMIT`); the spec fixes no numeric value, 30
is used here. -/
def DEFAULT_LIMIT : Nat := 30

/-- Modelled from the spec: `mask_proposal_execution_proposal_id`
(`cwd_voting::reply`) — a bijective masking transform placing
proposal-execution reply ids in a numeric range disjoint from the hook-index
id spaces (spec section 4.4). -/
def mask_proposal_execution_proposal_id (proposal_id : Nat) : Nat :=
  2 ^ 63 + proposal_id

/-- The three reply causes (`cwd_voting::reply::TaggedReplyId`),
spec section 4.4. -/
inductive TaggedReplyId
  | FailedProposalExecution (proposal_id : Nat)
  | FailedProposalHook (idx : Nat)
  | FailedVoteHook (idx : Nat)
  deriving DecidableEq, Repr

/-- Modelled from the spec: `TaggedReplyId::new` — decode an opaque reply id
into its cause using disjoint numeric ranges (spec section 4.4). -/
def TaggedReplyId.new (id : Nat) : Except ContractError TaggedReplyId :=
  if 2 ^ 63 ≤ id then .ok (.FailedProposalExecution (id - 2 ^ 63))
  else if 2 ^ 62 ≤ id then .ok (.FailedVoteHook (id - 2 ^ 62))
  else .ok (.FailedProposalHook id)

/-- Modelled from the spec: hook registry removal-by-index
(`Hooks::remove_hook_by_index`), used by the self-healing reply path
(spec section 4.3). -/
def remove_hook_by_index (hooks : List String) (idx : Nat) :
    Except ContractError (List String × String) :=
  match hooks.get? idx with
  | some addr => .ok (hooks.eraseIdx idx, addr)
  | none => .error .HookError

/-- `proposal_status_changed_hooks`: notify subscribers only when the status
actually changed. -/
def status_changed_hooks (old_status new_status : Status) : List SubMsg :=
  if old_status = new_status then []
  else [.hook "proposal_status_changed"]

/-- `instantiate` (`contract.rs` lines 40-78): store the configuration and
initialize the proposal count to zero.  Input validation
(`voting_strategy.validate`, `into_checked`, `validate_voting_period`) lives
in packages not among the sources and is outside this model. -/
def instantiate (config : Config) : State :=
  { config := config
  , proposal_count := 0
  , proposals := []
  , ballots := []
  , proposal_hooks := []
  , vote_hooks := [] }

/-- `advance_proposal_id` (`contract.rs` lines 634-638): the next id is the
stored count plus one, and becomes the new stored count. -/
def advance_proposal_id (count : Nat) : Nat × Nat :=
  (count + 1, count + 1)

/-- Modelled from the spec: `MultipleChoiceOptions::into_checked`
(`crate::state`) — choice validation requires at least two choices
(spec section 3 invariant). -/
def into_checked (options : List CheckedMultipleChoiceOption) :
    Except ContractError (List CheckedMultipleChoiceOption) :=
  if options.length < 2 then .error (.Std "must have at least two choices")
  else .ok options

/-- `execute_propose` (`contract.rs` lines 132-236).  The serialized-size
guard (`MAX_PROPOSAL_SIZE`) concerns host-level byte encoding and is outside
this model. -/
def execute_propose (q : Querier) (env : Env) (st : State) (sender : String)
    (title description : String)
    (options : List CheckedMultipleChoiceOption) :
    Except ContractError (State × Response) :=
  let config := st.config
  if ¬ q.is_active then .error .InactiveDao
  else if ¬ config.open_proposal_submission ∧ q.voting_power sender none = 0
    then .error .MustHaveVotingPower
  else
    match into_checked options with
    | .error e => .error e
    | .ok checked =>
      let expiration := config.max_voting_period.after env.block
      let total_power := q.total_power none
      let prop0 : MultipleChoiceProposal :=
        { title := title
        , description := description
        , proposer := sender
        , start_height := env.block.height
        , min_voting_period :=
            config.min_voting_period.map (fun m => m.after env.block)
        , expiration := expiration
        , voting_strategy := config.voting_strategy
        , total_power := total_power
        , status := .Open
        , votes := MultipleChoiceVotes.zero checked.length
        , allow_revoting := config.allow_revoting
        , deposit_info := config.deposit_info
        , choices := checked
        , created := env.block.time
        , last_updated := env.block.time }
      let prop := prop0.update_status env.block
      let id := (advance_proposal_id st.proposal_count).1
      let st' := { st with
        proposal_count := (advance_proposal_id st.proposal_count).2
        , proposals := save_proposal st.proposals id prop }
      let deposit_msg :=
        get_deposit_msg config.deposit_info env.contract_address sender
      .ok (st', { messages := deposit_msg
                , submessages := [.hook "new_proposal"] })

/-- The shared tail of `execute_vote` after the ballot update succeeded
(`contract.rs` lines 300-327): add the new weight to the tally, recompute the
status, persist ballot and proposal, emit hooks. -/
def vote_tail (env : Env) (st : State) (proposal_id : Nat) (sender : String)
    (vote : MultipleChoiceVote) (vote_power : Nat)
    (prop : MultipleChoiceProposal) : Except ContractError (State × Response) :=
  let old_status := prop.status
  let prop1 := { prop with votes := prop.votes.add_vote vote vote_power }
  let prop2 := prop1.update_status env.block
  let st' := { st with
    ballots := save_ballot st.ballots (proposal_id, sender)
        { power := vote_power, vote := vote }
    , proposals := save_proposal st.proposals proposal_id prop2 }
  .ok (st', { messages := []
            , submessages :=
                status_changed_hooks old_status prop2.status
                  ++ [.hook "new_vote"] })

/-- `execute_vote` (`contract.rs` lines 238-328). -/
def execute_vote (q : Querier) (env : Env) (st : State) (sender : String)
    (proposal_id : Nat) (vote : MultipleChoiceVote) :
    Except ContractError (State × Response) :=
  let config := st.config
  match lookup_proposal st.proposals proposal_id with
  | none => .error (.NoSuchProposal proposal_id)
  | some prop =>
    if prop.choices.length ≤ vote.option_id then .error .InvalidVote
    else if prop.current_status env.block ≠ .Open then
      .error (.NotOpen proposal_id)
    else
      let vote_power :=
        q.voting_power sender (some prop.start_height)
      if vote_power = 0 then .error .NotRegistered
      else
        have _ := config
        match lookup_ballot st.ballots (proposal_id, sender) with
        | some current_ballot =>
          if prop.allow_revoting then
            if current_ballot.vote = vote then .error .AlreadyCast
            else
              let newVotes :=
                prop.votes.remove_vote current_ballot.vote
                  current_ballot.power
              let reduced := { prop with votes := newVotes }
              vote_tail env st proposal_id sender vote vote_power reduced
          else .error .AlreadyVoted
        | none => vote_tail env st proposal_id sender vote vote_power prop

/-- `execute_execute` (`contract.rs` lines 330-428). -/
def execute_execute (q : Querier) (env : Env) (st : State) (sender : String)
    (proposal_id : Nat) : Except ContractError (State × Response) :=
  let config := st.config
  if config.only_members_execute
      ∧ q.voting_power sender (some env.block.height) = 0 then
    .error .Unauthorized
  else
    match lookup_proposal st.proposals proposal_id with
    | none => .error (.NoSuchProposal proposal_id)
    | some prop0 =>
      let prop1 := prop0.update_status env.block
      let old_status := prop1.status
      if prop1.status ≠ .Passed then .error .NotPassed
      else
        let prop := { prop1 with
          status := .Executed, last_updated := env.block.time }
        let st' := { st with
          proposals := save_proposal st.proposals proposal_id prop }
        let refund_message : List Msg :=
          match prop.deposit_info with
          | some d =>
            match d.refund_policy with
            | .Never => get_return_deposit_msg d config.dao
            | _ => get_return_deposit_msg d prop.proposer
          | none => []
        match prop.calculate_vote_result with
        | .Tie => .error .Tie
        | .SingleWinner winning_choice =>
          let (msgs, subs) :=
            match winning_choice.msgs with
            | some ms =>
              if ms.isEmpty then ([], [])
              else
                let execute_message := Msg.executeProposalHook config.dao ms
                if config.close_proposal_on_execution_failure then
                  ([], [SubMsg.replyOnError execute_message
                    (mask_proposal_execution_proposal_id proposal_id)])
                else ([execute_message], [])
            | none => ([], [])
          .ok (st', { messages := msgs ++ refund_message
                    , submessages :=
                        subs ++ status_changed_hooks old_status .Executed })

/-- `execute_close` (`contract.rs` lines 430-475).  The source uses
`PROPOSALS.load`, so a missing proposal surfaces as a host standard error. -/
def execute_close (env : Env) (st : State) (sender : String)
    (proposal_id : Nat) : Except ContractError (State × Response) :=
  match lookup_proposal st.proposals proposal_id with
  | none => .error (.Std "proposal not found")
  | some prop0 =>
    let config := st.config
    let prop1 := prop0.update_status env.block
    if prop1.status ≠ .Rejected then .error .WrongCloseStatus
    else
      have _ := sender
      let old_status := prop1.status
      let refund_message : List Msg :=
        match prop1.deposit_info with
        | some d =>
          match d.refund_policy with
          | .Always => get_return_deposit_msg d prop1.proposer
          | _ => get_return_deposit_msg d config.dao
        | none => []
      let prop2 := { prop1 with
        status := .Closed, last_updated := env.block.time }
      let st' := { st with
        proposals := save_proposal st.proposals proposal_id prop2 }
      .ok (st', { messages := refund_message
                , submessages := status_changed_hooks old_status prop2.status })

/-- `reply` (`contract.rs` lines 763-788): route the decoded reply cause — a
failed proposal execution downgrades the proposal to `ExecutionFailed`, a
failed hook delivery prunes the offending subscriber by index. -/
def reply (env : Env) (st : State) (id : Nat) :
    Except ContractError (State × Response) :=
  match TaggedReplyId.new id with
  | .error e => .error e
  | .ok (.FailedProposalExecution proposal_id) =>
    match lookup_proposal st.proposals proposal_id with
    | some prop =>
      let prop1 := { prop with
        status := .ExecutionFailed, last_updated := env.block.time }
      .ok ({ st with
              proposals := save_proposal st.proposals proposal_id prop1 }
          , { messages := [], submessages := [] })
    | none => .error (.NoSuchProposal proposal_id)
  | .ok (.FailedProposalHook idx) =>
    match remove_hook_by_index st.proposal_hooks idx with
    | .ok (hooks, _) =>
      .ok ({ st with proposal_hooks := hooks }
          , { messages := [], submessages := [] })
    | .error e => .error e
  | .ok (.FailedVoteHook idx) =>
    match remove_hook_by_index st.vote_hooks idx with
    | .ok (hooks, _) =>
      .ok ({ st with vote_hooks := hooks }
          , { messages := [], submessages := [] })
    | .error e => .error e

/-- The lifecycle operations reaching proposal state, as one action type. -/
inductive Action
  | Propose (sender title description : String)
      (options : List CheckedMultipleChoiceOption)
  | Vote (sender : String) (proposal_id : Nat) (vote : MultipleChoiceVote)
  | ExecuteProposal (sender : String) (proposal_id : Nat)
  | Close (sender : String) (proposal_id : Nat)
  | ReplyMsg (id : Nat)
  deriving Repr

/-- One top-level operation against the module (the `execute` and `reply`
entry points of `contract.rs`). -/
def step (q : Querier) (env : Env) (st : State) :
    Action → Except ContractError (State × Response)
  | .Propose sender title description options =>
    execute_propose q env st sender title description options
  | .Vote sender proposal_id vote =>
    execute_vote q env st sender proposal_id vote
  | .ExecuteProposal sender proposal_id =>
    execute_execute q env st sender proposal_id
  | .Close sender proposal_id => execute_close env st sender proposal_id
  | .ReplyMsg id => reply env st id

/-- A proposal list entry (`ProposalResponse`): id plus the proposal with its
status freshly recomputed (`into_response`). -/
structure ProposalResponse where
  id : Nat
  proposal : MultipleChoiceProposal
  deriving DecidableEq, Repr

/-- `MultipleChoiceProposal::into_response`: recompute the status for the
read. -/
def into_response (p : MultipleChoiceProposal) (b : BlockInfo) (id : Nat) :
    ProposalResponse :=
  ⟨id, p.update_status b⟩

/-- `query_list_proposals` (`contract.rs` lines 675-692): ascending range
strictly after `start_after`, truncated to the caller-supplied limit, which
defaults to `DEFAULT_LIMIT` when omitted. -/
def query_list_proposals (b : BlockInfo) (st : State)
    (start_after limit : Option Nat) : List ProposalResponse :=
  let lim := limit.getD DEFAULT_LIMIT
  let ranged :=
    match start_after with
    | none => st.proposals
    | some x => st.proposals.filter (fun kv => x < kv.1)
  (ranged.take lim).map (fun kv => into_response kv.2 b kv.1)

/-- `query_proposal_count` (`contract.rs` lines 713-716). -/
def query_proposal_count (st : State) : Nat := st.proposal_count

/-- The deposit-refund transfers contained in a response's ordinary
messages. -/
def Response.transfers (r : Response) : List (String × Nat) :=
  r.messages.filterMap (fun m =>
    match m with
    | .transfer recipient amount => some (recipient, amount)
    | _ => none)

/-- The ids held by the proposals map, in storage order. -/
def propIds (st : State) : List Nat := st.proposals.map Prod.fst

/-! ### Storage-map lemmas -/

theorem lookup_save_self :
    ∀ (l : List (Nat × MultipleChoiceProposal)) (k : Nat)
      (p : MultipleChoiceProposal),
      lookup_proposal (save_proposal l k p) k = some p
  | [], k, p => by simp [save_proposal, lookup_proposal]
  | (k0, q) :: tl, k, p => by
    unfold save_proposal
    by_cases h1 : k < k0
    · simp [h1, lookup_proposal]
    · by_cases h2 : k = k0
      · simp [h1, h2, lookup_proposal]
      · simp [h1, h2, lookup_proposal, lookup_save_self tl k p]

theorem lookup_save_ne :
    ∀ (l : List (Nat × MultipleChoiceProposal)) (k : Nat)
      (p : MultipleChoiceProposal) (k' : Nat), k' ≠ k →
      lookup_proposal (save_proposal l k p) k' = lookup_proposal l k'
  | [], k, p, k', h => by simp [save_proposal, lookup_proposal, h]
  | (k0, q) :: tl, k, p, k', h => by
    unfold save_proposal
    by_cases h1 : k < k0
    · simp [h1, lookup_proposal, h]
    · by_cases h2 : k = k0
      · subst h2; simp [h1, lookup_proposal, h]
      · by_cases h3 : k' = k0
        · simp [h1, h2, lookup_proposal, h3]
        · simp [h1, h2, lookup_proposal, h3, lookup_save_ne tl k p k' h]

theorem lookup_mem_keys :
    ∀ (l : List (Nat × MultipleChoiceProposal)) (k : Nat),
      lookup_proposal l k ≠ none → k ∈ l.map Prod.fst
  | [], k, h => by simp [lookup_proposal] at h
  | (k0, q) :: tl, k, h => by
    by_cases h2 : k = k0
    · simp [h2]
    · simp only [lookup_proposal, if_neg h2] at h
      simpa [h2] using lookup_mem_keys tl k h

theorem save_keys_sorted :
    ∀ (l : List (Nat × MultipleChoiceProposal)) (k : Nat)
      (p : MultipleChoiceProposal),
      (l.map Prod.fst).Pairwise (· < ·) → k ∈ l.map Prod.fst →
      (save_proposal l k p).map Prod.fst = l.map Prod.fst
  | [], k, p, _, hm => by simp at hm
  | (k0, q) :: tl, k, p, hs, hm => by
    simp only [List.map_cons, List.pairwise_cons] at hs
    by_cases h2 : k = k0
    · subst h2
      unfold save_proposal
      simp [lt_irrefl]
    · simp only [List.map_cons, List.mem_cons] at hm
      have hmtl : k ∈ tl.map Prod.fst := hm.resolve_left h2
      have hk0 : k0 < k := hs.1 k hmtl
      unfold save_proposal
      have h1 : ¬ k < k0 := by omega
      simp [h1, h2, save_keys_sorted tl k p hs.2 hmtl]

theorem save_append :
    ∀ (l : List (Nat × MultipleChoiceProposal)) (k : Nat)
      (p : MultipleChoiceProposal),
      (∀ x ∈ l.map Prod.fst, x < k) →
      save_proposal l k p = l ++ [(k, p)]
  | [], k, p, _ => by simp [save_proposal]
  | (k0, q) :: tl, k, p, h => by
    have hk0 : k0 < k := h k0 (by simp)
    unfold save_proposal
    have h1 : ¬ k < k0 := by omega
    have h2 : k ≠ k0 := by omega
    simp only [if_neg h1, if_neg h2, List.cons_append, List.cons.injEq,
      true_and]
    exact save_append tl k p (fun x hx => h x (by simp [hx]))

theorem lookup_ballot_save_self :
    ∀ (l : List ((Nat × String) × Ballot)) (key : Nat × String) (bl : Ballot),
      lookup_ballot (save_ballot l key bl) key = some bl
  | [], key, bl => by simp [save_ballot, lookup_ballot]
  | (k0, b0) :: tl, key, bl => by
    unfold save_ballot
    by_cases h : key = k0
    · subst h; simp [lookup_ballot]
    · simp [h, lookup_ballot, lookup_ballot_save_self tl key bl]

theorem save_ballot_length_of_found :
    ∀ (l : List ((Nat × String) × Ballot)) (key : Nat × String) (bl : Ballot),
      lookup_ballot l key ≠ none →
      (save_ballot l key bl).length = l.length
  | [], key, bl, h => by simp [lookup_ballot] at h
  | (k0, b0) :: tl, key, bl, h => by
    unfold save_ballot
    by_cases h2 : key = k0
    · simp [h2]
    · simp only [lookup_ballot, if_neg h2] at h
      simp [h2, save_ballot_length_of_found tl key bl h]

/-! ### Tally-list lemmas -/

theorem getD_set_self :
    ∀ (l : List Nat) (i a : Nat), i < l.length →
      (l.set i a).getD i 0 = a
  | [], i, a, h => by simp at h
  | x :: tl, 0, a, _ => by simp [List.set, List.getD]
  | x :: tl, i + 1, a, h => by
    simp only [List.set, List.getD_cons_succ]
    exact getD_set_self tl i a (by simpa using h)

theorem getD_set_ne :
    ∀ (l : List Nat) (i j a : Nat), i ≠ j →
      (l.set i a).getD j 0 = l.getD j 0
  | [], i, j, a, h => by simp
  | x :: tl, 0, 0, a, h => by omega
  | x :: tl, 0, j + 1, a, h => by simp [List.set]
  | x :: tl, i + 1, 0, a, h => by simp [List.set]
  | x :: tl, i + 1, j + 1, a, h => by
    simp only [List.set, List.getD_cons_succ]
    exact getD_set_ne tl i j a (by omega)

theorem set_oob :
    ∀ (l : List Nat) (i a : Nat), l.length ≤ i → l.set i a = l
  | [], _, _, _ => rfl
  | x :: tl, 0, a, h => by simp at h
  | x :: tl, i + 1, a, h => by
    simp only [List.set]
    rw [set_oob tl i a (by simpa using h)]

theorem getD_oob :
    ∀ (l : List Nat) (i : Nat), l.length ≤ i → l.getD i 0 = 0
  | [], _, _ => by simp [List.getD]
  | x :: tl, 0, h => by simp at h
  | x :: tl, i + 1, h => by
    simp only [List.getD_cons_succ]
    exact getD_oob tl i (by simpa using h)

/-! ### Status-derivation lemmas -/

theorem current_status_eq_executed (p : MultipleChoiceProposal)
    (b : BlockInfo) (h : p.current_status b = .Executed) :
    p.status = .Executed := by
  unfold MultipleChoiceProposal.current_status at h
  split at h
  · exact h
  · split at h
    · exact absurd h (by decide)
    · split at h <;> exact absurd h (by decide)

theorem status_nonterminal_of_current_open (p : MultipleChoiceProposal)
    (b : BlockInfo) (h : p.current_status b = .Open) :
    ¬(p.status = .Executed ∨ p.status = .ExecutionFailed
      ∨ p.status = .Closed) := by
  unfold MultipleChoiceProposal.current_status at h
  intro hc
  split at h
  · rcases hc with h1 | h1 | h1 <;> rw [h1] at h <;> exact absurd h (by decide)
  · next hneg => exact hneg hc

theorem calc_tie_of (p : MultipleChoiceProposal)
    (h : 2 ≤ ((p.votes.vote_weights.filter
      (fun x => x = maxWeight p.votes.vote_weights)).length)) :
    p.calculate_vote_result = .Tie := by
  unfold MultipleChoiceProposal.calculate_vote_result
  rw [if_pos h]

theorem is_passed_false_of_tie (p : MultipleChoiceProposal) (b : BlockInfo)
    (h : p.calculate_vote_result = .Tie) : p.is_passed b = false := by
  unfold MultipleChoiceProposal.is_passed
  rw [h]
  simp

theorem current_status_ne_passed_of_tie (p : MultipleChoiceProposal)
    (b : BlockInfo) (h : p.calculate_vote_result = .Tie) :
    p.current_status b ≠ .Passed := by
  unfold MultipleChoiceProposal.current_status
  split
  · next ht => rcases ht with h1 | h1 | h1 <;> rw [h1] <;> decide
  · rw [is_passed_false_of_tie p b h]
    simp only [Bool.false_eq_true, if_false]
    split <;> decide

/-! ### Operation shape lemmas: what a successful call commits -/

theorem update_status_status (p : MultipleChoiceProposal) (b : BlockInfo) :
    (p.update_status b).status = p.current_status b := rfl

theorem update_status_deposit_info (p : MultipleChoiceProposal)
    (b : BlockInfo) : (p.update_status b).deposit_info = p.deposit_info := rfl

theorem update_status_proposer (p : MultipleChoiceProposal) (b : BlockInfo) :
    (p.update_status b).proposer = p.proposer := rfl

theorem update_status_last_updated (p : MultipleChoiceProposal)
    (b : BlockInfo) : (p.update_status b).last_updated = p.last_updated := rfl

theorem vote_tail_ok (env : Env) (st : State) (pid : Nat) (sender : String)
    (v : MultipleChoiceVote) (pw : Nat) (prop : MultipleChoiceProposal)
    (st' : State) (r : Response)
    (h : vote_tail env st pid sender v pw prop = .ok (st', r)) :
    st' = { st with
      ballots := save_ballot st.ballots (pid, sender)
        { power := pw, vote := v }
      , proposals := save_proposal st.proposals pid
        (MultipleChoiceProposal.update_status
          { prop with votes := prop.votes.add_vote v pw } env.block) } := by
  simp only [vote_tail, Except.ok.injEq, Prod.mk.injEq] at h
  exact h.1.symm

theorem execute_vote_ok_shape (q : Querier) (env : Env) (st : State)
    (sender : String) (pid : Nat) (v : MultipleChoiceVote) (st' : State)
    (r : Response) (h : execute_vote q env st sender pid v = .ok (st', r)) :
    ∃ prop w, lookup_proposal st.proposals pid = some prop ∧
      prop.current_status env.block = .Open ∧
      st'.proposal_count = st.proposal_count ∧
      st'.proposals = save_proposal st.proposals pid w ∧
      w.last_updated = prop.last_updated ∧
      w.status ≠ .Executed := by
  simp only [execute_vote] at h
  split at h
  · simp at h
  · next prop hlp =>
    split at h
    · simp at h
    · split at h
      · simp at h
      · next hopen =>
        rw [not_not] at hopen
        split at h
        · simp at h
        · split at h
          · next current_ballot hbal =>
            split at h
            · split at h
              · simp at h
              · next hne =>
                have hst := vote_tail_ok _ _ _ _ _ _ _ _ _ h
                subst hst
                refine ⟨prop, _, hlp, hopen, rfl, rfl, rfl, ?_⟩
                intro hex
                have h2 := current_status_eq_executed _ env.block hex
                exact (status_nonterminal_of_current_open prop env.block
                  hopen) (Or.inl h2)
            · simp at h
          · next hbal =>
            have hst := vote_tail_ok _ _ _ _ _ _ _ _ _ h
            subst hst
            refine ⟨prop, _, hlp, hopen, rfl, rfl, rfl, ?_⟩
            intro hex
            have h2 := current_status_eq_executed _ env.block hex
            exact (status_nonterminal_of_current_open prop env.block
              hopen) (Or.inl h2)

theorem execute_propose_ok_shape (q : Querier) (env : Env) (st : State)
    (sender title description : String)
    (options : List CheckedMultipleChoiceOption) (st' : State) (r : Response)
    (h : execute_propose q env st sender title description options
      = .ok (st', r)) :
    ∃ w, st'.proposals = save_proposal st.proposals (st.proposal_count + 1) w ∧
      st'.proposal_count = st.proposal_count + 1 ∧
      w.status ≠ .Executed ∧ w.created = env.block.time ∧
      w.last_updated = env.block.time ∧
      st'.ballots = st.ballots := by
  simp only [execute_propose, advance_proposal_id] at h
  split at h
  · simp at h
  · split at h
    · simp at h
    · split at h
      · simp at h
      · next checked hchk =>
        simp only [Except.ok.injEq, Prod.mk.injEq] at h
        obtain ⟨hst, _⟩ := h
        subst hst
        refine ⟨_, rfl, rfl, ?_, rfl, rfl, rfl⟩
        intro hex
        rw [update_status_status] at hex
        have h2 := current_status_eq_executed _ env.block hex
        simp at h2

theorem execute_execute_ok_shape (q : Querier) (env : Env) (st : State)
    (sender : String) (pid : Nat) (st' : State) (r : Response)
    (h : execute_execute q env st sender pid = .ok (st', r)) :
    ∃ prop0, lookup_proposal st.proposals pid = some prop0 ∧
      (prop0.update_status env.block).status = .Passed ∧
      prop0.calculate_vote_result ≠ .Tie ∧
      st'.proposal_count = st.proposal_count ∧
      st'.ballots = st.ballots ∧
      st'.proposals = save_proposal st.proposals pid
        { prop0.update_status env.block with
          status := .Executed, last_updated := env.block.time } := by
  simp only [execute_execute] at h
  split at h
  · simp at h
  · split at h
    · simp at h
    · next prop0 hlp =>
      split at h
      · simp at h
      · next hpass =>
        rw [not_not] at hpass
        split at h
        · simp at h
        · next wc hwc =>
          have h5 : prop0.calculate_vote_result = .SingleWinner wc := hwc
          split at h <;>
            (simp only [Except.ok.injEq, Prod.mk.injEq] at h
             obtain ⟨hst, _⟩ := h
             subst hst
             refine ⟨prop0, hlp, hpass, ?_, rfl, rfl, rfl⟩
             intro htie
             rw [h5] at htie
             simp at htie)

theorem execute_close_ok_shape (env : Env) (st : State) (sender : String)
    (pid : Nat) (st' : State) (r : Response)
    (h : execute_close env st sender pid = .ok (st', r)) :
    ∃ prop0, lookup_proposal st.proposals pid = some prop0 ∧
      (prop0.update_status env.block).status = .Rejected ∧
      st'.proposal_count = st.proposal_count ∧
      st'.ballots = st.ballots ∧
      st'.proposals = save_proposal st.proposals pid
        { prop0.update_status env.block with
          status := .Closed, last_updated := env.block.time } := by
  simp only [execute_close] at h
  split at h
  · simp at h
  · next prop0 hlp =>
    split at h
    · simp at h
    · next hrej =>
      rw [not_not] at hrej
      simp only [Except.ok.injEq, Prod.mk.injEq] at h
      obtain ⟨hst, _⟩ := h
      subst hst
      exact ⟨prop0, hlp, hrej, rfl, rfl, rfl⟩

theorem reply_ok_shape (env : Env) (st : State) (id : Nat) (st' : State)
    (r : Response) (h : reply env st id = .ok (st', r)) :
    (∃ pid prop, TaggedReplyId.new id = .ok (.FailedProposalExecution pid) ∧
      lookup_proposal st.proposals pid = some prop ∧
      st'.proposal_count = st.proposal_count ∧
      st'.ballots = st.ballots ∧
      st'.proposals = save_proposal st.proposals pid
        { prop with
          status := .ExecutionFailed, last_updated := env.block.time })
    ∨ ((∀ p2, TaggedReplyId.new id ≠ .ok (.FailedProposalExecution p2)) ∧
      st'.proposals = st.proposals ∧
      st'.proposal_count = st.proposal_count ∧
      st'.ballots = st.ballots) := by
  simp only [reply] at h
  split at h
  · simp at h
  · next pid htag =>
    split at h
    · next prop hlp =>
      simp only [Except.ok.injEq, Prod.mk.injEq] at h
      obtain ⟨hst, _⟩ := h
      subst hst
      exact Or.inl ⟨pid, prop, htag, hlp, rfl, rfl, rfl⟩
    · simp at h
  · next idx htag =>
    split at h
    · next hooks addr hrm =>
      simp only [Except.ok.injEq, Prod.mk.injEq] at h
      obtain ⟨hst, _⟩ := h
      subst hst
      refine Or.inr ⟨?_, rfl, rfl, rfl⟩
      intro p2 hne
      rw [htag] at hne
      simp at hne
    · simp at h
  · next idx htag =>
    split at h
    · next hooks addr hrm =>
      simp only [Except.ok.injEq, Prod.mk.injEq] at h
      obtain ⟨hst, _⟩ := h
      subst hst
      refine Or.inr ⟨?_, rfl, rfl, rfl⟩
      intro p2 hne
      rw [htag] at hne
      simp at hne
    · simp at h

deriving instance DecidableEq for Except

/-! ### Concrete fixtures used by witnesses and counterexamples -/

/-- An oracle reporting power 5 for every address and total power 10. -/
def q1 : Querier := ⟨true, fun _ _ => 5, fun _ => 10⟩

/-- An oracle reporting zero power for every address. -/
def qZero : Querier := ⟨true, fun _ _ => 0, fun _ => 10⟩

/-- A concrete environment at height 100, time 1000. -/
def env1 : Env := ⟨⟨100, 1000⟩, "contract"⟩

/-- The environment used by the counterexample fixtures. -/
def cxEnv : Env := ⟨⟨100, 1000⟩, "contract"⟩

/-- A configuration with open submission, revoting, a `Never`-refund deposit
and the membership-execute gate off. -/
def cfg1 : Config :=
  ⟨⟨50⟩, none, .time 50, false, true, "dao", some ⟨"ujuno", 10, .Never⟩
  , false, true⟩

/-- Like `cfg1` but with `only_members_execute` enabled. -/
def cfgMember : Config := { cfg1 with only_members_execute := true }

/-- A proposal that has passed: expired, quorum met, unique winner. -/
def passedProp : MultipleChoiceProposal :=
  { title := "t", description := "d", proposer := "alice"
  , start_height := 90, min_voting_period := none
  , expiration := .atTime 900, voting_strategy := ⟨50⟩, total_power := 10
  , status := .Open, votes := ⟨[7, 1]⟩, allow_revoting := true
  , deposit_info := some ⟨"ujuno", 10, .Never⟩
  , choices := [⟨"a", some [1]⟩, ⟨"b", none⟩]
  , created := 10, last_updated := 10 }

/-- An expired proposal with a tied tally: freshly recomputed `Rejected`. -/
def cxProp : MultipleChoiceProposal := { passedProp with votes := ⟨[4, 4]⟩ }

/-- A still-open proposal: not expired, no votes cast yet. -/
def openProp : MultipleChoiceProposal :=
  { passedProp with expiration := .atTime 5000, votes := ⟨[0, 0]⟩ }

/-- State holding the passed proposal under id 1. -/
def st1 : State := ⟨cfg1, 1, [(1, passedProp)], [], [], []⟩

/-- State holding the rejected (tied, expired) proposal under id 1. -/
def cxState : State := ⟨cfg1, 1, [(1, cxProp)], [], [], []⟩

/-- Like `cxState` but with the membership-execute gate enabled. -/
def cxMemberState : State := ⟨cfgMember, 1, [(1, cxProp)], [], [], []⟩

/-- State holding the open proposal under id 1. -/
def st3 : State := ⟨cfg1, 1, [(1, openProp)], [], [], []⟩

/-! ### Claim C5: closing requires a freshly recomputed Rejected status -/

/-- C5: for every `Close(proposal_id)` call on an existing proposal, the call
succeeds only if the freshly recomputed status is exactly `Rejected` and
otherwise fails with `WrongCloseStatus` (so an `Open`, `Passed`, `Executed`,
`ExecutionFailed`, or already `Closed` proposal cannot be closed); on success
the stored status becomes `Closed`. -/
theorem claim_C5 (env : Env) (st : State) (sender : String) (pid : Nat)
    (prop : MultipleChoiceProposal)
    (hlp : lookup_proposal st.proposals pid = some prop) :
    (prop.current_status env.block ≠ .Rejected →
      execute_close env st sender pid = .error .WrongCloseStatus)
    ∧ (prop.current_status env.block = .Rejected →
      ∃ st' r, execute_close env st sender pid = .ok (st', r) ∧
        (lookup_proposal st'.proposals pid).map
          MultipleChoiceProposal.status = some .Closed) := by
  constructor
  · intro hne
    simp only [execute_close, hlp]
    rw [update_status_status, if_pos hne]
  · intro hrej
    cases hres : execute_close env st sender pid with
    | error e =>
      simp only [execute_close, hlp] at hres
      rw [update_status_status, if_neg (not_not_intro hrej)] at hres
      simp at hres
    | ok pr =>
      obtain ⟨st', r⟩ := pr
      refine ⟨st', r, rfl, ?_⟩
      obtain ⟨prop0, _, _, _, _, hprops⟩ :=
        execute_close_ok_shape env st sender pid st' r hres
      rw [hprops, lookup_save_self]
      rfl

/-- C5 witness: a concrete expired, tied (hence freshly `Rejected`) proposal
is closed successfully and ends stored as `Closed`. -/
theorem claim_C5_witness :
    ∃ st' r, execute_close cxEnv cxState "bob" 1 = .ok (st', r) ∧
      (lookup_proposal st'.proposals 1).map
        MultipleChoiceProposal.status = some .Closed :=
  (claim_C5 cxEnv cxState "bob" 1 cxProp rfl).2 (by decide)

/-! ### Claim C6: vote guard chain -/

/-- C6: for every `Vote(proposal_id, voter, vote)` call: it fails with
`NoSuchProposal` if no proposal with that id exists, with `InvalidVote` if the
chosen option index is not strictly below the number of choices, with
`NotOpen` if the recomputed status is not `Open`, and with `NotRegistered` if
the voter's power at the proposal's start height is zero; a first-time vote
succeeds exactly when none of these conditions hold. -/
theorem claim_C6 (q : Querier) (env : Env) (st : State) (sender : String)
    (pid : Nat) (v : MultipleChoiceVote) :
    (lookup_proposal st.proposals pid = none →
      execute_vote q env st sender pid v = .error (.NoSuchProposal pid))
    ∧ (∀ prop, lookup_proposal st.proposals pid = some prop →
      prop.choices.length ≤ v.option_id →
      execute_vote q env st sender pid v = .error .InvalidVote)
    ∧ (∀ prop, lookup_proposal st.proposals pid = some prop →
      v.option_id < prop.choices.length →
      prop.current_status env.block ≠ .Open →
      execute_vote q env st sender pid v = .error (.NotOpen pid))
    ∧ (∀ prop, lookup_proposal st.proposals pid = some prop →
      v.option_id < prop.choices.length →
      prop.current_status env.block = .Open →
      q.voting_power sender (some prop.start_height) = 0 →
      execute_vote q env st sender pid v = .error .NotRegistered)
    ∧ (∀ prop, lookup_proposal st.proposals pid = some prop →
      v.option_id < prop.choices.length →
      prop.current_status env.block = .Open →
      q.voting_power sender (some prop.start_height) ≠ 0 →
      lookup_ballot st.ballots (pid, sender) = none →
      ∃ st' r, execute_vote q env st sender pid v = .ok (st', r)) := by
  refine ⟨?_, ?_, ?_, ?_, ?_⟩
  · intro hnone
    simp [execute_vote, hnone]
  · intro prop hlp hle
    simp only [execute_vote, hlp]
    rw [if_pos hle]
  · intro prop hlp hrange hnopen
    simp only [execute_vote, hlp]
    rw [if_neg (not_le.mpr hrange), if_pos hnopen]
  · intro prop hlp hrange hopen hpw
    simp only [execute_vote, hlp]
    rw [if_neg (not_le.mpr hrange), if_neg (not_not_intro hopen),
      if_pos hpw]
  · intro prop hlp hrange hopen hpw hbal
    simp only [execute_vote, hlp, hbal]
    rw [if_neg (not_le.mpr hrange), if_neg (not_not_intro hopen),
      if_neg hpw]
    exact ⟨_, _, rfl⟩

/-- C6 witness: on a concrete open proposal, a first-time vote by a registered
voter succeeds, and the `InvalidVote` guard fires for an out-of-range
option. -/
theorem claim_C6_witness :
    (∃ st' r, execute_vote q1 env1 st3 "carol" 1 ⟨0⟩ = .ok (st', r)) ∧
    execute_vote q1 env1 st3 "carol" 1 ⟨2⟩ = .error .InvalidVote :=
  ⟨(claim_C6 q1 env1 st3 "carol" 1 ⟨0⟩).2.2.2.2 openProp rfl (by decide)
      (by decide) (by decide) rfl
  , (claim_C6 q1 env1 st3 "carol" 1 ⟨2⟩).2.1 openProp rfl (by decide)⟩

/-! ### Claim C4 (corrected): the Passed guard of Execute -/

/-- C4 counterexample: with `only_members_execute` set and a zero-power
sender, an `Execute` call on an existing proposal whose freshly recomputed
status is not `Passed` fails with `Unauthorized`, not `NotPassed` — the
membership gate fires before the status is recomputed, so the claim's
unconditional "fails with NotPassed unless the recomputed status is exactly
Passed" is false as stated. -/
theorem claim_C4_counterexample :
    lookup_proposal cxMemberState.proposals 1 = some cxProp ∧
    cxProp.current_status cxEnv.block ≠ .Passed ∧
    execute_execute qZero cxEnv cxMemberState "alice" 1
      = .error .Unauthorized ∧
    execute_execute qZero cxEnv cxMemberState "alice" 1
      ≠ .error .NotPassed := by
  exact ⟨rfl, by decide, rfl, by decide⟩

/-- C4 (amended): for every `Execute(proposal_id)` call on an existing
proposal, provided the `only_members_execute` gate passes (the flag is off or
the sender's current voting power is nonzero), the proposal's status is
freshly recomputed from tally and current block and the call fails with
`NotPassed` unless the recomputed status is exactly `Passed`; in particular a
proposal whose recomputed status is `Rejected` due to expiration is never
executable, regardless of any previously stored status. -/
theorem claim_C4 (q : Querier) (env : Env) (st : State) (sender : String)
    (pid : Nat) (prop : MultipleChoiceProposal)
    (hauth : st.config.only_members_execute = true →
      q.voting_power sender (some env.block.height) ≠ 0)
    (hlp : lookup_proposal st.proposals pid = some prop) :
    (prop.current_status env.block ≠ .Passed →
      execute_execute q env st sender pid = .error .NotPassed)
    ∧ (∀ st' r, execute_execute q env st sender pid = .ok (st', r) →
      prop.current_status env.block = .Passed) := by
  constructor
  · intro hne
    simp only [execute_execute, hlp]
    rw [if_neg (fun hc => hauth hc.1 hc.2), update_status_status,
      if_pos hne]
  · intro st' r h
    obtain ⟨prop0, hlp0, hpass, _, _, _, _⟩ :=
      execute_execute_ok_shape q env st sender pid st' r h
    rw [hlp] at hlp0
    injection hlp0 with he
    rw [← he, update_status_status] at hpass
    exact hpass

/-- C4 witness: on a concrete rejected (expired) proposal, with the
membership gate disabled, `Execute` fails with `NotPassed`. -/
theorem claim_C4_witness :
    execute_execute q1 cxEnv cxState "alice" 1 = .error .NotPassed :=
  (claim_C4 q1 cxEnv cxState "alice" 1 cxProp (by decide) rfl).1 (by decide)

/-! ### Claim C3: deposit refund routing -/

/-- C3: for every proposal created with a deposit, a successful `Execute`
issues a return-deposit transfer to the DAO address when the refund policy is
`Never` and to the proposer for every other policy; a successful `Close`
issues a return-deposit transfer to the proposer when the policy is `Always`
and to the DAO address when the policy is `Never` or `OnlyPassed`; proposals
with no deposit info produce no refund message. -/
theorem claim_C3 (q : Querier) (env : Env) (st : State) (sender : String)
    (pid : Nat) (prop : MultipleChoiceProposal)
    (hlp : lookup_proposal st.proposals pid = some prop) :
    (∀ st' r, execute_execute q env st sender pid = .ok (st', r) →
      r.transfers = (match prop.deposit_info with
        | none => []
        | some d =>
          [((match d.refund_policy with
            | .Never => st.config.dao
            | _ => prop.proposer), d.amount)]))
    ∧ (∀ st' r, execute_close env st sender pid = .ok (st', r) →
      r.transfers = (match prop.deposit_info with
        | none => []
        | some d =>
          [((match d.refund_policy with
            | .Always => prop.proposer
            | _ => st.config.dao), d.amount)])) := by
  constructor
  · intro st' r h
    simp only [execute_execute, hlp] at h
    split at h
    · simp at h
    · split at h
      · simp at h
      · next hpass =>
        split at h
        · simp at h
        · next wc hwc =>
          rcases hdep : prop.deposit_info with _ | ⟨dn, am, pol⟩
          all_goals try rcases pol
          all_goals (
            simp only [update_status_deposit_info, update_status_proposer,
              hdep, get_return_deposit_msg] at h
            repeat' split at h
            all_goals (
              simp only [Except.ok.injEq, Prod.mk.injEq] at h
              obtain ⟨_, hr⟩ := h
              subst hr
              simp [Response.transfers, hdep]))
  · intro st' r h
    simp only [execute_close, hlp] at h
    split at h
    · next hrej =>
      simp at h
    · rcases hdep : prop.deposit_info with _ | ⟨dn, am, pol⟩
      all_goals try rcases pol
      all_goals (
        simp only [update_status_deposit_info, update_status_proposer,
          hdep, get_return_deposit_msg] at h
        simp only [Except.ok.injEq, Prod.mk.injEq] at h
        obtain ⟨_, hr⟩ := h
        subst hr
        simp [Response.transfers, hdep])

/-- The state committed by executing the passed fixture proposal. -/
def exState1 : State :=
  { st1 with proposals :=
      [(1, { passedProp with status := .Executed, last_updated := 1000 })] }

/-- The response of executing the passed fixture proposal. -/
def exResp1 : Response :=
  ⟨[.executeProposalHook "dao" [1], .transfer "dao" 10]
  , [.hook "proposal_status_changed"]⟩

/-- The state committed by closing the rejected fixture proposal. -/
def clState1 : State :=
  { cxState with proposals :=
      [(1, { cxProp with status := .Closed, last_updated := 1000 })] }

/-- The response of closing the rejected fixture proposal. -/
def clResp1 : Response :=
  ⟨[.transfer "dao" 10], [.hook "proposal_status_changed"]⟩

/-- C3 witness: under the `Never` refund policy, a successful `Execute` and a
successful `Close` both route the concrete deposit (10 `ujuno`) to the DAO
treasury. -/
theorem claim_C3_witness :
    (execute_execute q1 env1 st1 "bob" 1 = .ok (exState1, exResp1) ∧
      exResp1.transfers = [("dao", 10)]) ∧
    (execute_close cxEnv cxState "bob" 1 = .ok (clState1, clResp1) ∧
      clResp1.transfers = [("dao", 10)]) :=
  ⟨⟨by decide
  , (claim_C3 q1 env1 st1 "bob" 1 passedProp rfl).1 exState1 exResp1
      (by decide)⟩
  , ⟨by decide
  , (claim_C3 q1 cxEnv cxState "bob" 1 cxProp rfl).2 clState1 clResp1
      (by decide)⟩⟩

/-! ### Claim C1: the revote rule -/

theorem mcv_ne_of_ne {a c : MultipleChoiceVote} (h : a ≠ c) :
    a.option_id ≠ c.option_id :=
  fun hh => h (by cases a; cases c; simpa using hh)

theorem revote_weights (l : List Nat) (bi vi bp vp : Nat)
    (hne : bi ≠ vi) (hlen : vi < l.length) :
    ((l.set bi (l.getD bi 0 - bp)).set vi
        ((l.set bi (l.getD bi 0 - bp)).getD vi 0 + vp)).getD vi 0
      = l.getD vi 0 + vp ∧
    ((l.set bi (l.getD bi 0 - bp)).set vi
        ((l.set bi (l.getD bi 0 - bp)).getD vi 0 + vp)).getD bi 0
      = l.getD bi 0 - bp ∧
    ∀ i, i ≠ vi → i ≠ bi →
      ((l.set bi (l.getD bi 0 - bp)).set vi
        ((l.set bi (l.getD bi 0 - bp)).getD vi 0 + vp)).getD i 0
        = l.getD i 0 := by
  have hlen1 : vi < (l.set bi (l.getD bi 0 - bp)).length := by simpa using hlen
  refine ⟨?_, ?_, ?_⟩
  · rw [getD_set_self _ _ _ hlen1, getD_set_ne _ _ _ _ hne]
  · rw [getD_set_ne _ _ _ _ (Ne.symm hne)]
    by_cases hb : bi < l.length
    · rw [getD_set_self _ _ _ hb]
    · rw [set_oob _ _ _ (le_of_not_lt hb), getD_oob _ _ (le_of_not_lt hb)]
      omega
  · intro i hvi hbi
    rw [getD_set_ne _ _ _ _ (Ne.symm hvi), getD_set_ne _ _ _ _ (Ne.symm hbi)]

/-- C1: for every `Vote(proposal_id, voter, vote)` on an `Open` proposal where
a ballot for `(proposal_id, voter)` already exists (and the vote index is in
range and the voter still reports nonzero power, per the C6 guard chain): if
`allow_revoting` is false the call fails with `AlreadyVoted`; if
`allow_revoting` is true and the new vote equals the stored ballot's vote the
call fails with `AlreadyCast`; otherwise the stored ballot's power is
subtracted from its old choice's tally, the voter's current power is added to
the new choice's tally, and the ballot is replaced (not duplicated) with the
new choice and power. -/
theorem claim_C1 (q : Querier) (env : Env) (st : State) (sender : String)
    (pid : Nat) (v : MultipleChoiceVote) (prop : MultipleChoiceProposal)
    (b : Ballot)
    (hlp : lookup_proposal st.proposals pid = some prop)
    (hbal : lookup_ballot st.ballots (pid, sender) = some b)
    (hrange : v.option_id < prop.choices.length)
    (hopen : prop.current_status env.block = .Open)
    (hpw : q.voting_power sender (some prop.start_height) ≠ 0)
    (hlen : prop.votes.vote_weights.length = prop.choices.length) :
    (prop.allow_revoting = false →
      execute_vote q env st sender pid v = .error .AlreadyVoted)
    ∧ (prop.allow_revoting = true → b.vote = v →
      execute_vote q env st sender pid v = .error .AlreadyCast)
    ∧ (prop.allow_revoting = true → b.vote ≠ v →
      ∃ st' r, execute_vote q env st sender pid v = .ok (st', r) ∧
        lookup_ballot st'.ballots (pid, sender)
          = some { power := q.voting_power sender (some prop.start_height)
                 , vote := v } ∧
        st'.ballots.length = st.ballots.length ∧
        ∃ w, lookup_proposal st'.proposals pid = some w ∧
          w.votes.vote_weights.getD v.option_id 0
            = prop.votes.vote_weights.getD v.option_id 0
              + q.voting_power sender (some prop.start_height) ∧
          w.votes.vote_weights.getD b.vote.option_id 0
            = prop.votes.vote_weights.getD b.vote.option_id 0 - b.power ∧
          ∀ i, i ≠ v.option_id → i ≠ b.vote.option_id →
            w.votes.vote_weights.getD i 0
              = prop.votes.vote_weights.getD i 0) := by
  refine ⟨?_, ?_, ?_⟩
  · intro hrev
    simp only [execute_vote, hlp, hbal]
    rw [if_neg (not_le.mpr hrange), if_neg (not_not_intro hopen), if_neg hpw]
    simp [hrev]
  · intro hrev heq
    simp only [execute_vote, hlp, hbal]
    rw [if_neg (not_le.mpr hrange), if_neg (not_not_intro hopen), if_neg hpw]
    simp [hrev, heq]
  · intro hrev hne
    cases hres : execute_vote q env st sender pid v with
    | error e =>
      simp only [execute_vote, hlp, hbal] at hres
      rw [if_neg (not_le.mpr hrange), if_neg (not_not_intro hopen),
        if_neg hpw] at hres
      simp [hrev, hne, vote_tail] at hres
    | ok pr =>
      obtain ⟨st', r⟩ := pr
      simp only [execute_vote, hlp, hbal] at hres
      rw [if_neg (not_le.mpr hrange), if_neg (not_not_intro hopen),
        if_neg hpw] at hres
      simp only [hrev, if_true, hne, if_neg, ite_false, ite_true,
        Bool.false_eq_true] at hres
      have hst := vote_tail_ok _ _ _ _ _ _ _ _ _ hres
      subst hst
      refine ⟨_, r, rfl, ?_, ?_, ?_⟩
      · exact lookup_ballot_save_self _ _ _
      · exact save_ballot_length_of_found _ _ _ (by rw [hbal]; simp)
      · have hbne : b.vote.option_id ≠ v.option_id := mcv_ne_of_ne hne
        have hvlen : v.option_id < prop.votes.vote_weights.length := by
          rw [hlen]; exact hrange
        obtain ⟨h1, h2, h3⟩ := revote_weights prop.votes.vote_weights
          b.vote.option_id v.option_id b.power
          (q.voting_power sender (some prop.start_height)) hbne hvlen
        exact ⟨_, lookup_save_self _ _ _, h1, h2, h3⟩

/-- An open proposal on which carol has already cast choice 0 with power 5. -/
def revProp : MultipleChoiceProposal := { openProp with votes := ⟨[5, 0]⟩ }

/-- State holding `revProp` and carol's existing ballot. -/
def revState : State :=
  ⟨cfg1, 1, [(1, revProp)], [((1, "carol"), ⟨5, ⟨0⟩⟩)], [], []⟩

/-- C1 witness: carol revotes from choice 0 to choice 1 on a concrete open
proposal with revoting enabled; the old power is subtracted from choice 0,
the current power added to choice 1, and the ballot replaced in place. -/
theorem claim_C1_witness :
    ∃ st' r, execute_vote q1 env1 revState "carol" 1 ⟨1⟩ = .ok (st', r) ∧
      lookup_ballot st'.ballots (1, "carol")
        = some { power := 5, vote := ⟨1⟩ } ∧
      st'.ballots.length = revState.ballots.length ∧
      ∃ w, lookup_proposal st'.proposals 1 = some w ∧
        w.votes.vote_weights.getD 1 0
          = revProp.votes.vote_weights.getD 1 0 + 5 ∧
        w.votes.vote_weights.getD 0 0
          = revProp.votes.vote_weights.getD 0 0 - 5 ∧
        ∀ i, i ≠ 1 → i ≠ 0 →
          w.votes.vote_weights.getD i 0
            = revProp.votes.vote_weights.getD i 0 :=
  (claim_C1 q1 env1 revState "carol" 1 ⟨1⟩ revProp ⟨5, ⟨0⟩⟩ rfl rfl
    (by decide) (by decide) (by decide) (by decide)).2.2 rfl (by decide)

/-! ### Claim C2: tie safety -/

/-- C2: a proposal whose top choices are tied for the highest tallied weight
(two or more tally entries equal to the maximum) never reaches `Executed`:
every `Execute` call on it fails — with `Unauthorized` when the membership
gate fires first, and otherwise with `NotPassed`, since a tie is never
passable; the dedicated `Tie` error guards the one later point where a tie
could still surface inside `execute_execute` — and no lifecycle operation
commits an `Executed` status for it. -/
theorem claim_C2 (q : Querier) (env : Env) (st : State) (pid : Nat)
    (prop : MultipleChoiceProposal)
    (hlp : lookup_proposal st.proposals pid = some prop)
    (htie : 2 ≤ ((prop.votes.vote_weights.filter
      (fun x => x = maxWeight prop.votes.vote_weights)).length))
    (hnx : prop.status ≠ .Executed)
    (hcount : pid ≤ st.proposal_count) :
    (∀ sender, execute_execute q env st sender pid = .error .Unauthorized
      ∨ execute_execute q env st sender pid = .error .NotPassed)
    ∧ (∀ a st' r, step q env st a = .ok (st', r) →
      ∀ w, lookup_proposal st'.proposals pid = some w →
        w.status ≠ .Executed) := by
  have hcalc : prop.calculate_vote_result = .Tie := calc_tie_of prop htie
  have hfail : ∀ sender,
      execute_execute q env st sender pid = .error .Unauthorized
      ∨ execute_execute q env st sender pid = .error .NotPassed := by
    intro sender
    by_cases hm : st.config.only_members_execute = true
      ∧ q.voting_power sender (some env.block.height) = 0
    · left
      simp only [execute_execute]
      rw [if_pos hm]
    · right
      simp only [execute_execute, hlp]
      rw [if_neg hm, update_status_status,
        if_pos (current_status_ne_passed_of_tie prop env.block hcalc)]
  refine ⟨hfail, ?_⟩
  intro a st' r hstep w hw
  cases a with
  | Propose sender t d o =>
    obtain ⟨w0, hprops, hcnt, hstat, _, _, _⟩ :=
      execute_propose_ok_shape q env st sender t d o st' r hstep
    have hne : pid ≠ st.proposal_count + 1 := by omega
    rw [hprops, lookup_save_ne _ _ _ _ hne, hlp] at hw
    injection hw with he
    rw [← he]
    exact hnx
  | Vote sender pid2 v =>
    obtain ⟨p0, w0, hlp0, hopen0, hcnt, hprops, hlast, hstat⟩ :=
      execute_vote_ok_shape q env st sender pid2 v st' r hstep
    by_cases hpe : pid = pid2
    · subst hpe
      rw [hprops, lookup_save_self] at hw
      injection hw with he
      rw [← he]
      exact hstat
    · rw [hprops, lookup_save_ne _ _ _ _ hpe, hlp] at hw
      injection hw with he
      rw [← he]
      exact hnx
  | ExecuteProposal sender pid2 =>
    by_cases hpe : pid = pid2
    · subst hpe
      simp only [step] at hstep
      rcases hfail sender with hx | hx <;> rw [hstep] at hx <;> simp at hx
    · obtain ⟨p0, hlp0, _, _, hcnt, _, hprops⟩ :=
        execute_execute_ok_shape q env st sender pid2 st' r hstep
      rw [hprops, lookup_save_ne _ _ _ _ hpe, hlp] at hw
      injection hw with he
      rw [← he]
      exact hnx
  | Close sender pid2 =>
    obtain ⟨p0, hlp0, hrej, hcnt, hballots, hprops⟩ :=
      execute_close_ok_shape env st sender pid2 st' r hstep
    by_cases hpe : pid = pid2
    · subst hpe
      rw [hprops, lookup_save_self] at hw
      injection hw with he
      rw [← he]
      exact fun hc => Status.noConfusion hc
    · rw [hprops, lookup_save_ne _ _ _ _ hpe, hlp] at hw
      injection hw with he
      rw [← he]
      exact hnx
  | ReplyMsg id =>
    rcases reply_ok_shape env st id st' r hstep with
      ⟨pid2, p0, htag, hlp0, hcnt, hballots, hprops⟩ | ⟨_, hprops, _, _⟩
    · by_cases hpe : pid = pid2
      · subst hpe
        rw [hprops, lookup_save_self] at hw
        injection hw with he
        rw [← he]
        exact fun hc => Status.noConfusion hc
      · rw [hprops, lookup_save_ne _ _ _ _ hpe, hlp] at hw
        injection hw with he
        rw [← he]
        exact hnx
    · rw [hprops, hlp] at hw
      injection hw with he
      rw [← he]
      exact hnx

/-- The tied fixture state with one registered proposal hook, so that a
lifecycle step (a failed-hook reply) succeeds on it. -/
def tiedHookState : State := { cxState with proposal_hooks := ["h1"] }

/-- `tiedHookState` after the failed-hook reply pruned the subscriber. -/
def tiedHookStateAfter : State := { tiedHookState with proposal_hooks := [] }

/-- C2 witness: on a concrete tied proposal, `Execute` fails with `NotPassed`,
and a successful lifecycle step (a hook-failure reply) leaves the tied
proposal's status not `Executed`. -/
theorem claim_C2_witness :
    execute_execute q1 cxEnv tiedHookState "bob" 1 = .error .NotPassed ∧
    cxProp.status ≠ .Executed :=
  ⟨((claim_C2 q1 cxEnv tiedHookState 1 cxProp rfl (by decide) (by decide)
      (by decide)).1 "bob").resolve_left (by decide)
  , (claim_C2 q1 cxEnv tiedHookState 1 cxProp rfl (by decide) (by decide)
      (by decide)).2 (.ReplyMsg 0) tiedHookStateAfter ⟨[], []⟩ (by decide)
      cxProp (by decide)⟩

/-! ### Claim C8: monotonic proposal-id allocation -/

theorem keys_lt_next (st : State)
    (hinv : propIds st = List.range' 1 st.proposal_count) :
    ∀ x ∈ st.proposals.map Prod.fst, x < st.proposal_count + 1 := by
  intro x hx
  rw [show st.proposals.map Prod.fst = propIds st from rfl, hinv,
    List.mem_range'_1] at hx
  omega

theorem keys_pairwise (st : State)
    (hinv : propIds st = List.range' 1 st.proposal_count) :
    (st.proposals.map Prod.fst).Pairwise (· < ·) := by
  rw [show st.proposals.map Prod.fst = propIds st from rfl, hinv]
  exact List.pairwise_lt_range' 1 st.proposal_count

theorem lookup_fresh_none (st : State)
    (hinv : propIds st = List.range' 1 st.proposal_count) :
    lookup_proposal st.proposals (st.proposal_count + 1) = none := by
  cases hl : lookup_proposal st.proposals (st.proposal_count + 1) with
  | none => rfl
  | some p =>
    exfalso
    have hm := lookup_mem_keys st.proposals (st.proposal_count + 1)
      (by rw [hl]; simp)
    exact absurd (keys_lt_next st hinv _ hm) (by omega)

/-- C8: proposal identifiers are allocated monotonically: the count is
initialized to zero at instantiation, a successful `Propose` assigns id equal
to the previous count plus one (fresh, not reusing any stored id), every
lifecycle operation preserves the invariant that the stored ids are exactly
`1, 2, ..., count` with no gaps, and hence `ProposalCount` always equals the
id of the most recently created proposal. -/
theorem claim_C8 :
    (∀ config, (instantiate config).proposal_count = 0 ∧
      propIds (instantiate config)
        = List.range' 1 (instantiate config).proposal_count)
    ∧ (∀ q env st a st' r,
      propIds st = List.range' 1 st.proposal_count →
      step q env st a = .ok (st', r) →
      propIds st' = List.range' 1 st'.proposal_count)
    ∧ (∀ q env st sender title description options st' r,
      propIds st = List.range' 1 st.proposal_count →
      execute_propose q env st sender title description options
        = .ok (st', r) →
      st'.proposal_count = st.proposal_count + 1 ∧
      lookup_proposal st.proposals st'.proposal_count = none ∧
      ∃ w, lookup_proposal st'.proposals st'.proposal_count = some w) := by
  refine ⟨fun config => ⟨rfl, rfl⟩, ?_, ?_⟩
  · intro q env st a st' r hinv hstep
    cases a with
    | Propose sender t d o =>
      obtain ⟨w0, hprops, hcnt, _, _, _, _⟩ :=
        execute_propose_ok_shape q env st sender t d o st' r hstep
      rw [save_append _ _ _ (keys_lt_next st hinv)] at hprops
      show st'.proposals.map Prod.fst = _
      rw [hprops, hcnt, List.map_append, List.range'_1_concat]
      show propIds st ++ _ = _
      rw [hinv]
      simp [Nat.add_comm]
    | Vote sender pid2 v =>
      obtain ⟨p0, w0, hlp0, _, hcnt, hprops, _, _⟩ :=
        execute_vote_ok_shape q env st sender pid2 v st' r hstep
      show st'.proposals.map Prod.fst = _
      rw [hprops, hcnt,
        save_keys_sorted _ _ _ (keys_pairwise st hinv)
          (lookup_mem_keys _ _ (by rw [hlp0]; simp))]
      exact hinv
    | ExecuteProposal sender pid2 =>
      obtain ⟨p0, hlp0, _, _, hcnt, _, hprops⟩ :=
        execute_execute_ok_shape q env st sender pid2 st' r hstep
      show st'.proposals.map Prod.fst = _
      rw [hprops, hcnt,
        save_keys_sorted _ _ _ (keys_pairwise st hinv)
          (lookup_mem_keys _ _ (by rw [hlp0]; simp))]
      exact hinv
    | Close sender pid2 =>
      obtain ⟨p0, hlp0, _, hcnt, _, hprops⟩ :=
        execute_close_ok_shape env st sender pid2 st' r hstep
      show st'.proposals.map Prod.fst = _
      rw [hprops, hcnt,
        save_keys_sorted _ _ _ (keys_pairwise st hinv)
          (lookup_mem_keys _ _ (by rw [hlp0]; simp))]
      exact hinv
    | ReplyMsg id =>
      rcases reply_ok_shape env st id st' r hstep with
        ⟨pid2, p0, _, hlp0, hcnt, _, hprops⟩ | ⟨_, hprops, hcnt, _⟩
      · show st'.proposals.map Prod.fst = _
        rw [hprops, hcnt,
          save_keys_sorted _ _ _ (keys_pairwise st hinv)
            (lookup_mem_keys _ _ (by rw [hlp0]; simp))]
        exact hinv
      · show st'.proposals.map Prod.fst = _
        rw [hprops, hcnt]
        exact hinv
  · intro q env st sender title description options st' r hinv hstep
    obtain ⟨w0, hprops, hcnt, _, _, _, _⟩ :=
      execute_propose_ok_shape q env st sender title description options
        st' r hstep
    refine ⟨hcnt, ?_, ?_⟩
    · rw [hcnt]
      exact lookup_fresh_none st hinv
    · rw [hcnt, hprops]
      exact ⟨w0, lookup_save_self _ _ _⟩

/-- The proposal committed by the witness `Propose` call. -/
def proposedProp : MultipleChoiceProposal :=
  { title := "t", description := "d", proposer := "alice"
  , start_height := 100, min_voting_period := none
  , expiration := .atTime 1050, voting_strategy := ⟨50⟩, total_power := 10
  , status := .Open, votes := ⟨[0, 0]⟩, allow_revoting := true
  , deposit_info := some ⟨"ujuno", 10, .Never⟩
  , choices := [⟨"a", none⟩, ⟨"b", none⟩]
  , created := 1000, last_updated := 1000 }

/-- The state after the witness `Propose` call on a fresh instance. -/
def proposedState : State :=
  { instantiate cfg1 with
    proposal_count := 1
    proposals := [(1, proposedProp)] }

/-- The response of the witness `Propose` call. -/
def proposeResp : Response :=
  ⟨[.escrowDeposit "alice" 10], [.hook "new_proposal"]⟩

/-- C8 witness: a fresh instance has count zero and no proposals, and a
concrete successful `Propose` on it assigns id 1 = 0 + 1, fresh. -/
theorem claim_C8_witness :
    ((instantiate cfg1).proposal_count = 0 ∧
      propIds (instantiate cfg1)
        = List.range' 1 (instantiate cfg1).proposal_count) ∧
    (proposedState.proposal_count = 1 ∧
      lookup_proposal (instantiate cfg1).proposals 1 = none ∧
      ∃ w, lookup_proposal proposedState.proposals 1 = some w) :=
  ⟨claim_C8.1 cfg1
  , by
      have h := claim_C8.2.2 q1 env1 (instantiate cfg1) "alice" "t" "d"
        [⟨"a", none⟩, ⟨"b", none⟩] proposedState proposeResp rfl (by decide)
      exact ⟨h.1, h.2.1, h.2.2⟩⟩

/-! ### Claim C9: which operations write `last_updated` -/

/-- C9: every successful `Vote` leaves the proposal's `last_updated` timestamp
unchanged, while proposal creation, `Execute`, `Close`, and the
failed-execution reply write it (creation also sets `created`). -/
theorem claim_C9 (q : Querier) (env : Env) (st : State) (sender : String)
    (pid : Nat) (v : MultipleChoiceVote) (id : Nat)
    (title description : String)
    (options : List CheckedMultipleChoiceOption) :
    (∀ st' r, execute_vote q env st sender pid v = .ok (st', r) →
      ∃ prop w, lookup_proposal st.proposals pid = some prop ∧
        lookup_proposal st'.proposals pid = some w ∧
        w.last_updated = prop.last_updated)
    ∧ (∀ st' r, execute_execute q env st sender pid = .ok (st', r) →
      ∃ w, lookup_proposal st'.proposals pid = some w ∧
        w.last_updated = env.block.time)
    ∧ (∀ st' r, execute_close env st sender pid = .ok (st', r) →
      ∃ w, lookup_proposal st'.proposals pid = some w ∧
        w.last_updated = env.block.time)
    ∧ (∀ pid2 st' r, reply env st id = .ok (st', r) →
      TaggedReplyId.new id = .ok (.FailedProposalExecution pid2) →
      ∃ w, lookup_proposal st'.proposals pid2 = some w ∧
        w.last_updated = env.block.time)
    ∧ (∀ st' r, execute_propose q env st sender title description options
        = .ok (st', r) →
      ∃ w, lookup_proposal st'.proposals (st.proposal_count + 1) = some w ∧
        w.created = env.block.time ∧ w.last_updated = env.block.time) := by
  refine ⟨?_, ?_, ?_, ?_, ?_⟩
  · intro st' r h
    obtain ⟨prop, w, hlp0, _, _, hprops, hlast, _⟩ :=
      execute_vote_ok_shape q env st sender pid v st' r h
    refine ⟨prop, w, hlp0, ?_, hlast⟩
    rw [hprops]
    exact lookup_save_self _ _ _
  · intro st' r h
    obtain ⟨p0, _, _, _, _, _, hprops⟩ :=
      execute_execute_ok_shape q env st sender pid st' r h
    have hl2 : lookup_proposal st'.proposals pid
        = some { p0.update_status env.block with
          status := .Executed, last_updated := env.block.time } := by
      rw [hprops]
      exact lookup_save_self _ _ _
    exact ⟨_, hl2, rfl⟩
  · intro st' r h
    obtain ⟨p0, _, _, _, _, hprops⟩ :=
      execute_close_ok_shape env st sender pid st' r h
    have hl2 : lookup_proposal st'.proposals pid
        = some { p0.update_status env.block with
          status := .Closed, last_updated := env.block.time } := by
      rw [hprops]
      exact lookup_save_self _ _ _
    exact ⟨_, hl2, rfl⟩
  · intro pid2 st' r h htag
    rcases reply_ok_shape env st id st' r h with
      ⟨pid3, p0, htag3, hlp0, _, _, hprops⟩ | ⟨hnot, _, _, _⟩
    · rw [htag3] at htag
      injection htag with he
      injection he with he2
      subst he2
      have hl2 : lookup_proposal st'.proposals pid3
          = some { p0 with
            status := .ExecutionFailed, last_updated := env.block.time } := by
        rw [hprops]
        exact lookup_save_self _ _ _
      exact ⟨_, hl2, rfl⟩
    · exact absurd htag (hnot pid2)
  · intro st' r h
    obtain ⟨w, hprops, _, _, hcreated, hlast, _⟩ :=
      execute_propose_ok_shape q env st sender title description options
        st' r h
    refine ⟨w, ?_, hcreated, hlast⟩
    rw [hprops]
    exact lookup_save_self _ _ _

/-- The proposal after carol's witness first vote. -/
def votedProp : MultipleChoiceProposal := { openProp with votes := ⟨[5, 0]⟩ }

/-- The state after carol's witness first vote. -/
def votedState : State :=
  { st3 with
    proposals := [(1, votedProp)]
    ballots := [((1, "carol"), ⟨5, ⟨0⟩⟩)] }

/-- The response of carol's witness first vote. -/
def votedResp : Response := ⟨[], [.hook "new_vote"]⟩

/-- C9 witness: carol's concrete successful vote leaves the proposal's
`last_updated` exactly as it was. -/
theorem claim_C9_witness :
    ∃ prop w, lookup_proposal st3.proposals 1 = some prop ∧
      lookup_proposal votedState.proposals 1 = some w ∧
      w.last_updated = prop.last_updated :=
  (claim_C9 q1 env1 st3 "carol" 1 ⟨0⟩ 0 "" "" []).1 votedState votedResp
    (by decide)

/-! ### Claim C10: the failed-execution reply -/

/-- C10: for every reply whose id decodes to
`FailedProposalExecution(proposal_id)`: if the proposal exists, its status is
unconditionally overwritten to `ExecutionFailed` and its `last_updated` set to
the current block time, regardless of its current status; if it does not
exist, the reply fails with `NoSuchProposal`. -/
theorem claim_C10 (env : Env) (st : State) (id : Nat) (pid : Nat)
    (htag : TaggedReplyId.new id = .ok (.FailedProposalExecution pid)) :
    (∀ prop, lookup_proposal st.proposals pid = some prop →
      reply env st id = .ok
        ({ st with proposals :=
            save_proposal st.proposals pid { prop with
              status := .ExecutionFailed, last_updated := env.block.time } }
        , { messages := [], submessages := [] }))
    ∧ (lookup_proposal st.proposals pid = none →
      reply env st id = .error (.NoSuchProposal pid)) := by
  constructor
  · intro prop hlp
    simp only [reply, htag, hlp]
  · intro hnone
    simp only [reply, htag, hnone]

/-- C10 witness: a masked reply id for proposal 1 flips the concrete *open*
(not `Executed`) proposal to `ExecutionFailed` with `last_updated` 1000, and
the same reply against a state without proposal 2 fails. -/
theorem claim_C10_witness :
    reply env1 st3 (2 ^ 63 + 1) = .ok
      ({ st3 with proposals := [(1, { openProp with
          status := .ExecutionFailed, last_updated := 1000 })] }
      , { messages := [], submessages := [] }) ∧
    openProp.status ≠ .Executed ∧
    reply env1 st3 (2 ^ 63 + 2) = .error (.NoSuchProposal 2) :=
  ⟨(claim_C10 env1 st3 (2 ^ 63 + 1) 1 (by decide)).1 openProp rfl
  , by decide
  , (claim_C10 env1 st3 (2 ^ 63 + 2) 2 (by decide)).2 rfl⟩

/-! ### Claim C7: ListProposals pagination -/

/-- The ids carried by a page of proposal responses. -/
def respIds (l : List ProposalResponse) : List Nat :=
  l.map ProposalResponse.id

theorem filter_lt_eq_drop :
    ∀ (l : List Nat), l.Pairwise (· < ·) → ∀ x : Nat,
      l.filter (fun y => x < y)
        = l.drop ((l.filter (fun y => y ≤ x)).length)
  | [], _, x => by simp
  | a :: tl, hp, x => by
    rw [List.pairwise_cons] at hp
    by_cases hax : x < a
    · have h1 : List.filter (fun y => decide (x < y)) tl = tl :=
        List.filter_eq_self.mpr (fun y hy => by
          simp only [decide_eq_true_eq]
          exact lt_trans hax (hp.1 y hy))
      have h2 : List.filter (fun y => decide (y ≤ x)) (a :: tl) = [] :=
        List.filter_eq_nil_iff.mpr (fun y hy => by
          simp only [decide_eq_true_eq, not_le]
          rcases List.mem_cons.mp hy with he | ht
          · exact he ▸ hax
          · exact lt_trans hax (hp.1 y ht))
      rw [h2]
      simp [List.filter_cons, hax, h1]
    · have hax2 : a ≤ x := le_of_not_lt hax
      simp [List.filter_cons, hax, hax2, filter_lt_eq_drop tl hp.2 x]

theorem respIds_def (b : BlockInfo)
    (l : List (Nat × MultipleChoiceProposal)) (n : Nat) :
    respIds ((l.take n).map (fun kv => into_response kv.2 b kv.1))
      = (l.map Prod.fst).take n := by
  unfold respIds
  rw [List.map_map, ← List.map_take]
  rfl

theorem map_fst_filter (x : Nat) :
    ∀ (l : List (Nat × MultipleChoiceProposal)),
      (l.filter (fun kv => x < kv.1)).map Prod.fst
        = (l.map Prod.fst).filter (fun y => x < y)
  | [] => rfl
  | kv :: tl => by
    by_cases h : x < kv.1 <;>
      simp [List.filter_cons, h, map_fst_filter x tl]

/-- A store of 31 proposals with ids 1..31. -/
def manyProps : List (Nat × MultipleChoiceProposal) :=
  (List.range 31).map (fun i => (i + 1, openProp))

/-- A state holding 31 proposals. -/
def manySt : State := ⟨cfg1, 31, manyProps, [], [], []⟩

/-- C7 counterexample: the caller-supplied limit is used as given — there is
no maximum cap — so a limit of 31 on a 31-proposal store returns 31 entries,
exceeding the default limit constant of 30.  This falsifies the claim's "never
exceeds that constant even when the caller supplies a larger limit". -/
theorem claim_C7_counterexample :
    DEFAULT_LIMIT < 31 ∧
    (query_list_proposals cxEnv.block manySt none (some 31)).length = 31 :=
  ⟨by decide, by decide⟩

/-- C7 (amended): `ListProposals{start_after, limit}` lists proposals in
ascending id order starting strictly after `start_after`, with no overlap and
no gaps relative to the full ascending id list — the page is exactly the
contiguous slice of the full id list beginning right after the ids at most
`start_after`; the page size defaults to the fixed default limit constant
when `limit` is omitted, but a caller-supplied limit is used as given, with
no maximum cap. -/
theorem claim_C7 (b : BlockInfo) (st : State)
    (hs : (propIds st).Pairwise (· < ·)) :
    (∀ lim, respIds (query_list_proposals b st none lim)
      = (propIds st).take (lim.getD DEFAULT_LIMIT))
    ∧ (∀ x lim, respIds (query_list_proposals b st (some x) lim)
      = ((propIds st).drop
          (((propIds st).filter (fun y => y ≤ x)).length)).take
          (lim.getD DEFAULT_LIMIT)) := by
  constructor
  · intro lim
    simp only [query_list_proposals]
    exact respIds_def b st.proposals _
  · intro x lim
    simp only [query_list_proposals]
    rw [respIds_def b _ _, map_fst_filter x st.proposals]
    show ((propIds st).filter _).take _ = _
    rw [filter_lt_eq_drop (propIds st) hs x]

/-- C7 witness: on a concrete 31-proposal store, the first page without
`start_after` is the first two ids, and the page after id 3 is the slice
right after the three ids at most 3. -/
theorem claim_C7_witness :
    respIds (query_list_proposals cxEnv.block manySt none (some 2))
      = (propIds manySt).take 2 ∧
    respIds (query_list_proposals cxEnv.block manySt (some 3) (some 2))
      = ((propIds manySt).drop
          (((propIds manySt).filter (fun y => y ≤ 3)).length)).take 2 :=
  ⟨(claim_C7 cxEnv.block manySt (by decide)).1 (some 2)
  , (claim_C7 cxEnv.block manySt (by decide)).2 3 (some 2)⟩

end ProposalMultiple
